import Mathlib

set_option maxRecDepth 4000

/-!
Verification development for the btc-checker repository (src/main.py).

The core under specification is the indicator pipeline `calculate_indicators`
(SMA 50/200 via pandas rolling means, RSI 14 via rolling means of gains and
losses, MACD and its signal line via exponentially weighted means with
adjust=False) and the rule-based classifier `generate_signal`.

Embedding choices, mirroring the Python/pandas source:
- Prices are modelled as rationals (ℚ).  A column value that pandas would
  hold as NaN is modelled as `none : Option ℚ`; a defined value as `some q`.
- Python float comparisons involving NaN are always False; the helpers
  `olt` / `ole` below return `false` whenever either side is `none`.
- In the RSI computation, pandas divides the average gain by the average
  loss: g / 0 is +infinity for g > 0 (so RSI saturates at 100), and 0 / 0 is
  NaN (so RSI is undefined there).  `RSI` below implements exactly those
  cases on rationals.
- Python string formatting "%.2f" / "%.4f" is modelled by `fmtFixed`, which
  renders a rational in fixed-point with the requested number of decimals
  (rounding half away from zero; the inputs used in concrete theorems are
  exact at that precision, so the rounding convention is not load-bearing).
-/

/-- Comparison `a < b` under Python float semantics: any comparison with an
undefined (NaN) operand is false. -/
def olt : Option ℚ → Option ℚ → Bool
  | some a, some b => decide (a < b)
  | _, _ => false

/-- Comparison `a <= b` under Python float semantics: any comparison with an
undefined (NaN) operand is false. -/
def ole : Option ℚ → Option ℚ → Bool
  | some a, some b => decide (a ≤ b)
  | _, _ => false

/-- Left-pad a digit string with zeros to width `n` (fixed-point fraction part). -/
def padZeros (n : ℕ) (s : String) : String :=
  (List.replicate (n - s.length) '0').asString ++ s

/-- Fixed-point rendering of a rational with `n` decimal digits, modelling
Python's format specifier ".nf" (sign, integer part, point, n fraction digits). -/
def fmtFixed (n : ℕ) (q : ℚ) : String :=
  let m : ℤ := ⌊|q| * (10 : ℚ) ^ n + 1 / 2⌋
  let base : ℤ := (10 : ℤ) ^ n
  let sign := if q < 0 then "-" else ""
  if n = 0 then sign ++ toString m
  else sign ++ toString (m / base) ++ "." ++ padZeros n (toString (m % base))

/-- Rendering of a possibly-NaN column value; Python formats a NaN float as "nan". -/
def fmtNum (n : ℕ) : Option ℚ → String
  | some q => fmtFixed n q
  | none => "nan"

/-- Pandas `Series.rolling(window=w).mean()` over a series of closes: the value
at index i is the arithmetic mean of the w entries at indices i-w+1 .. i, and
NaN (modelled `none`) while fewer than w entries exist (i + 1 < w). -/
def rollingMean (w : ℕ) (xs : List ℚ) : List (Option ℚ) :=
  (List.range xs.length).map fun i =>
    if i + 1 < w then none
    else some (((xs.take (i + 1)).drop (i + 1 - w)).sum / (w : ℚ))

/-- Pandas `Series.ewm(span=s, adjust=False).mean()` tail recursion: each value
is a * x + (1 - a) * previous, threading the previous output. -/
def ewmMeanFrom (a prev : ℚ) : List ℚ → List ℚ
  | [] => []
  | x :: xs => (a * x + (1 - a) * prev) :: ewmMeanFrom a (a * x + (1 - a) * prev) xs

/-- Pandas `Series.ewm(span=s, adjust=False).mean()`: smoothing factor
a = 2 / (s + 1), seeded with the first entry, no warm-up suppression. -/
def ewmMean (s : ℕ) : List ℚ → List ℚ
  | [] => []
  | x :: xs => x :: ewmMeanFrom (2 / ((s : ℚ) + 1)) x xs

/-- The gain series of the RSI computation: `delta = Close.diff()`,
`gain = delta.where(delta > 0, 0)`.  The index-0 delta is NaN in pandas but
`NaN > 0` is False, so `where` replaces it with 0; every later entry is
max(delta, 0). -/
def gains : List ℚ → List ℚ
  | [] => []
  | x :: xs => 0 :: List.zipWith (fun cur prev => if cur - prev > 0 then cur - prev else 0) xs (x :: xs)

/-- The loss series of the RSI computation: `loss = -delta.where(delta < 0, 0)`.
The index-0 entry is -0 = 0 (NaN < 0 is False); every later entry is
max(-delta, 0). -/
def losses : List ℚ → List ℚ
  | [] => []
  | x :: xs => 0 :: List.zipWith (fun cur prev => if cur - prev < 0 then -(cur - prev) else 0) xs (x :: xs)

/-- The RSI column of `calculate_indicators`:
`rs = gain.rolling(14).mean() / loss.rolling(14).mean()`, `RSI = 100 - 100 / (1 + rs)`.
Mirrors the float semantics of the division: while either rolling mean is NaN
the result is NaN; when the average loss is 0 and the average gain is positive,
rs is +infinity and RSI collapses to 100; when both averages are 0, rs is 0/0 =
NaN and RSI is NaN; otherwise RSI = 100 - 100 / (1 + g / l). -/
def rsiCombine : Option ℚ → Option ℚ → Option ℚ
  | some g, some l =>
    if l = 0 then (if g = 0 then none else some 100)
    else some (100 - 100 / (1 + g / l))
  | _, _ => none

def RSI (xs : List ℚ) : List (Option ℚ) :=
  List.zipWith rsiCombine (rollingMean 14 (gains xs)) (rollingMean 14 (losses xs))

/-- The SMA_50 column: `Close.rolling(window=50).mean()`. -/
def SMA_50 (xs : List ℚ) : List (Option ℚ) := rollingMean 50 xs

/-- The SMA_200 column: `Close.rolling(window=200).mean()`. -/
def SMA_200 (xs : List ℚ) : List (Option ℚ) := rollingMean 200 xs

/-- The MACD column: EMA(12) of Close minus EMA(26) of Close, point-wise. -/
def MACD (xs : List ℚ) : List ℚ :=
  List.zipWith (fun a b => a - b) (ewmMean 12 xs) (ewmMean 26 xs)

/-- The MACD_Signal column: EMA(9) of the MACD column itself. -/
def MACD_Signal (xs : List ℚ) : List ℚ := ewmMean 9 (MACD xs)

/-- One row of the annotated frame produced by `calculate_indicators`: the
original Close plus the five derived indicator columns.  MACD and MACD_Signal
are numerically defined from the first row, so they are plain rationals. -/
structure Row where
  close : ℚ
  sma_50 : Option ℚ
  sma_200 : Option ℚ
  rsi : Option ℚ
  macd : ℚ
  macd_signal : ℚ
  deriving Repr, DecidableEq

/-- The names of the columns `calculate_indicators` adds to the frame, in
assignment order (lines 76-88 of src/main.py). -/
def indicatorColumns : List String :=
  ["SMA_50", "SMA_200", "RSI", "MACD", "MACD_Signal"]

/-- The indicator engine of src/main.py (`calculate_indicators`): annotates the
close series with the five derived indicator columns, leaving the closes, the
row count and the row order unchanged. -/
def calculate_indicators (xs : List ℚ) : List Row :=
  (List.range xs.length).map fun i =>
    { close := xs.getD i 0
      sma_50 := (SMA_50 xs).getD i none
      sma_200 := (SMA_200 xs).getD i none
      rsi := (RSI xs).getD i none
      macd := (MACD xs).getD i 0
      macd_signal := (MACD_Signal xs).getD i 0 }

def sellLabel : String := "🔻 Sell Signal - Sell all"

def buyLabel : String := "🟢 Buy Signal - Invest all"

def buildingLabel : String := "🟡 Building Buy Zone - Invest slowly"

def neutralLabel : String := "⚪ Neutral/Wait - Hold cash"

/-- Condition of the first (Sell) branch of `generate_signal`:
`macd < macd_signal and (rsi > 65 or (price > sma50 and price > sma200))`. -/
def sellCond (rsi price sma50 sma200 macd macd_signal : Option ℚ) : Bool :=
  olt macd macd_signal && (olt (some 65) rsi || (olt sma50 price && olt sma200 price))

/-- Condition of the second (Buy) branch of `generate_signal`:
`macd > macd_signal and rsi < 35 and price < sma50 and price > sma200`. -/
def buyCond (rsi price sma50 sma200 macd macd_signal : Option ℚ) : Bool :=
  olt macd_signal macd && olt rsi (some 35) && olt price sma50 && olt sma200 price

/-- Condition of the third (Building Buy Zone) branch of `generate_signal`:
`35 <= rsi < 45 and price <= sma50 and macd > macd_signal` (Python's chained
comparison is the conjunction of the two comparisons). -/
def buildingCond (rsi price sma50 sma200 macd macd_signal : Option ℚ) : Bool :=
  ole (some 35) rsi && olt rsi (some 45) && ole price sma50 && olt macd_signal macd

/-- The signal classifier of src/main.py (`generate_signal`): an ordered
decision list over the latest indicator values, returning the label and the
rationale string of the first branch whose condition holds. -/
def generate_signal (rsi price sma50 sma200 macd macd_signal : Option ℚ) :
    String × String :=
  if sellCond rsi price sma50 sma200 macd macd_signal then
    (sellLabel,
      "MACD = " ++ fmtNum 4 macd ++ " < Signal = " ++ fmtNum 4 macd_signal ++
        ", RSI = " ++ fmtNum 2 rsi ++ " or price over SMA50/SMA200 → Bearish setup")
  else if buyCond rsi price sma50 sma200 macd macd_signal then
    (buyLabel,
      "MACD = " ++ fmtNum 4 macd ++ " > Signal = " ++ fmtNum 4 macd_signal ++
        ", RSI = " ++ fmtNum 2 rsi ++ ", Price < SMA50 but > SMA200 → Strong buy")
  else if buildingCond rsi price sma50 sma200 macd macd_signal then
    (buildingLabel,
      "RSI = " ++ fmtNum 2 rsi ++ " (35–45), MACD = " ++ fmtNum 4 macd ++
        " > Signal = " ++ fmtNum 4 macd_signal ++ " → Gradual buying zone")
  else
    (neutralLabel,
      "MACD = " ++ fmtNum 4 macd ++ ", RSI = " ++ fmtNum 2 rsi ++
        ", Price = $" ++ fmtNum 2 price ++ " → No strong alignment")

/-- Whether `pat` is a prefix of `l`, as an executable Boolean on character lists. -/
def isPref : List Char → List Char → Bool
  | [], _ => true
  | _ :: _, [] => false
  | a :: as, b :: bs => a == b && isPref as bs

/-- Whether `needle` occurs as a contiguous run inside the second list. -/
def hasSub (needle : List Char) : List Char → Bool
  | [] => needle.isEmpty
  | b :: bs => isPref needle (b :: bs) || hasSub needle bs

/-- Whether `needle` occurs as a substring of `hay`. -/
def strContains (hay needle : String) : Bool := hasSub needle.data hay.data

example : (generate_signal (some 70) (some 10) (some 20) (some 20) (some 1) (some 0)).1
    = neutralLabel := by decide

example : (generate_signal (some 70) (some 10) (some 20) (some 20) (some (-1)) (some 0)).1
    = sellLabel := by decide

/-! ## Helper lemmas about the classifier -/

lemma olt_asymm (a b : Option ℚ) (h : olt a b = true) : olt b a = false := by
  cases a <;> cases b <;> simp_all [olt]
  exact le_of_lt h

lemma olt_self (m : ℚ) : olt (some m) (some m) = false := by simp [olt]

lemma buy_ne_sell : buyLabel ≠ sellLabel := by decide

lemma building_ne_sell : buildingLabel ≠ sellLabel := by decide

lemma neutral_ne_sell : neutralLabel ≠ sellLabel := by decide

/-- The classifier returns the Sell label exactly when the first branch's
condition holds. -/
lemma fst_eq_sell_iff (rsi price sma50 sma200 macd macd_signal : Option ℚ) :
    (generate_signal rsi price sma50 sma200 macd macd_signal).1 = sellLabel ↔
      sellCond rsi price sma50 sma200 macd macd_signal = true := by
  unfold generate_signal
  cases hs : sellCond rsi price sma50 sma200 macd macd_signal
  · cases hb : buyCond rsi price sma50 sma200 macd macd_signal
    · cases hc : buildingCond rsi price sma50 sma200 macd macd_signal
      · simpa using neutral_ne_sell
      · simpa using building_ne_sell
    · simpa using buy_ne_sell
  · simp

/-! ## C1 -/

/-- C1 counterexample: at RSI = 70 with the MACD line above its signal line
(macd = 1 > 0 = macd_signal), the classifier returns Neutral, not Sell — so
RSI > 65 alone does not make the first-priority Sell rule fire, refuting the
claim that the Sell rule fires whenever RSI > 65 regardless of the
MACD/signal relationship. -/
theorem rsi_over_65_macd_above_signal_not_sell :
    (generate_signal (some 70) (some 10) (some 20) (some 20) (some 1) (some 0)).1
        = neutralLabel ∧
    (generate_signal (some 70) (some 10) (some 20) (some 20) (some 1) (some 0)).1
        ≠ sellLabel := by
  decide

/-- C1 (amended): the classifier's first-priority Sell rule fires exactly when
the MACD line is below its signal line AND (RSI > 65 OR the price is above
both the 50-period and the 200-period moving averages); RSI > 65 alone does
not suffice when MACD is not below its signal line. -/
theorem sell_fires_iff_macd_below_signal (rsi price sma50 sma200 macd macd_signal : Option ℚ) :
    (generate_signal rsi price sma50 sma200 macd macd_signal).1 = sellLabel ↔
      (olt macd macd_signal &&
        (olt (some 65) rsi || (olt sma50 price && olt sma200 price))) = true :=
  fst_eq_sell_iff rsi price sma50 sma200 macd macd_signal

/-! ## C2 -/

/-- C2 counterexample: the observation cited by the claim (RSI = 70, MACD line
above its signal line, price below SMA-50 and above SMA-200) yields Neutral
under the code, not Sell: the code's Sell branch additionally requires
MACD < signal, so this observation does not satisfy the code's Sell condition
at all. -/
theorem claimed_dual_condition_example_yields_neutral :
    (generate_signal (some 70) (some 100) (some 200) (some 50) (some 1) (some 0)).1
        = neutralLabel ∧
    (generate_signal (some 70) (some 100) (some 200) (some 50) (some 1) (some 0)).1
        ≠ sellLabel := by
  decide

/-- C2 (amended): the code's Sell and Buy conditions are mutually exclusive
(Sell requires MACD < signal, Buy requires MACD > signal), so no observation
satisfies both simultaneously; and whenever the Sell condition holds the
classifier returns the Sell label, never the Buy label. -/
theorem sell_buy_exclusive_and_sell_precedence
    (rsi price sma50 sma200 macd macd_signal : Option ℚ) :
    (sellCond rsi price sma50 sma200 macd macd_signal &&
      buyCond rsi price sma50 sma200 macd macd_signal) = false ∧
    (sellCond rsi price sma50 sma200 macd macd_signal = true →
      (generate_signal rsi price sma50 sma200 macd macd_signal).1 = sellLabel ∧
      (generate_signal rsi price sma50 sma200 macd macd_signal).1 ≠ buyLabel) := by
  constructor
  · cases hm : olt macd macd_signal
    · simp [sellCond, hm]
    · have h2 := olt_asymm _ _ hm
      simp [buyCond, h2]
  · intro h
    have h1 := (fst_eq_sell_iff rsi price sma50 sma200 macd macd_signal).mpr h
    refine ⟨h1, ?_⟩
    rw [h1]
    decide

/-- C2 witness: a concrete observation satisfying the code's Sell condition
(RSI = 70, MACD = -1 below signal = 0) on which the amended theorem yields the
Sell label. -/
theorem sell_buy_exclusive_and_sell_precedence_witness :
    (generate_signal (some 70) (some 300) (some 200) (some 50) (some (-1)) (some 0)).1
        = sellLabel :=
  ((sell_buy_exclusive_and_sell_precedence (some 70) (some 300) (some 200) (some 50)
      (some (-1)) (some 0)).2 (by decide)).1

/-! ## C3 -/

/-- C3: classifier totality — for every combination of defined or undefined
(NaN) indicator inputs and every real-valued price, the classifier returns
exactly one label from the closed 4-label set; and with every indicator
undefined every rule fails open, so the result is the Neutral default. -/
theorem generate_signal_total (rsi sma50 sma200 macd macd_signal : Option ℚ) (price : ℚ) :
    (generate_signal rsi (some price) sma50 sma200 macd macd_signal).1 ∈
      [sellLabel, buyLabel, buildingLabel, neutralLabel] ∧
    (generate_signal none (some price) none none none none).1 = neutralLabel := by
  constructor
  · unfold generate_signal
    repeat' split
    all_goals simp
  · rfl

/-! ## C10 -/

/-- C10: when the MACD value equals the MACD-signal value exactly, every
branch's strict MACD/signal inequality fails, so the classifier returns the
Neutral label regardless of RSI, price and the moving averages. -/
theorem macd_eq_signal_yields_neutral (rsi price sma50 sma200 : Option ℚ) (m : ℚ) :
    (generate_signal rsi price sma50 sma200 (some m) (some m)).1 = neutralLabel := by
  have h := olt_self m
  unfold generate_signal sellCond buyCond buildingCond
  simp [h]

/-! ## Helper lemmas about the indicator engine -/

lemma map_getD_range (xs : List ℚ) :
    (List.range xs.length).map (fun i => xs.getD i 0) = xs := by
  apply List.ext_getElem
  · simp
  · intro i h1 h2
    simp only [List.getElem_map, List.getElem_range]
    exact List.getD_eq_getElem xs 0 h2

lemma rollingMean_length (w : ℕ) (xs : List ℚ) :
    (rollingMean w xs).length = xs.length := by
  simp [rollingMean]

lemma rollingMean_getElem? (w : ℕ) (xs : List ℚ) (i : ℕ) (h : i < xs.length) :
    (rollingMean w xs)[i]? =
      some (if i + 1 < w then none
        else some (((xs.take (i + 1)).drop (i + 1 - w)).sum / (w : ℚ))) := by
  simp [rollingMean, List.getElem?_range h]

lemma rollingMean_short (w : ℕ) (xs : List ℚ) (h : xs.length < w) :
    ∀ v ∈ rollingMean w xs, v = none := by
  intro v hv
  simp only [rollingMean, List.mem_map, List.mem_range] at hv
  obtain ⟨i, hi, rfl⟩ := hv
  rw [if_pos (by omega)]

lemma rollingMean_last (w : ℕ) (xs : List ℚ) (h0 : 0 < w) (h : w ≤ xs.length) :
    (rollingMean w xs).getLast? =
      some (some ((xs.drop (xs.length - w)).sum / (w : ℚ))) := by
  have hL : 0 < xs.length := lt_of_lt_of_le h0 h
  have h1 : xs.length - 1 + 1 = xs.length := by omega
  rw [List.getLast?_eq_getElem?, rollingMean_length]
  rw [rollingMean_getElem? w xs (xs.length - 1) (by omega)]
  rw [h1, if_neg (by omega), List.take_length]

/-! ## C5 -/

/-- C5: for every series shorter than 50 (resp. 200) points the SMA_50
(resp. SMA_200) column is undefined at every point; and for every window
0 < n ≤ length, the rolling mean at the last index is the arithmetic mean of
the last n closes. -/
theorem sma_short_undefined_and_last_mean (xs : List ℚ) :
    (xs.length < 50 → ∀ v ∈ SMA_50 xs, v = none) ∧
    (xs.length < 200 → ∀ v ∈ SMA_200 xs, v = none) ∧
    (∀ n : ℕ, 0 < n → n ≤ xs.length →
      (rollingMean n xs).getLast? =
        some (some ((xs.drop (xs.length - n)).sum / (n : ℚ)))) := by
  refine ⟨fun h => rollingMean_short 50 xs h, fun h => rollingMean_short 200 xs h,
    fun n h0 h => rollingMean_last n xs h0 h⟩

/-- C5 witness: on the 3-point series [1, 2, 3] both SMA columns are undefined,
and on [1, 3, 5] the 2-period rolling mean ends at (3 + 5) / 2 = 4. -/
theorem sma_short_undefined_and_last_mean_witness :
    (SMA_50 [(1 : ℚ), 2, 3]).getD 0 (some 0) = none ∧
    (SMA_200 [(1 : ℚ), 2, 3]).getD 0 (some 0) = none ∧
    (rollingMean 2 [(1 : ℚ), 3, 5]).getLast? = some (some 4) := by
  refine ⟨?_, ?_, ?_⟩
  · exact (sma_short_undefined_and_last_mean [(1 : ℚ), 2, 3]).1 (by decide)
      ((SMA_50 [(1 : ℚ), 2, 3]).getD 0 (some 0)) (by decide)
  · exact (sma_short_undefined_and_last_mean [(1 : ℚ), 2, 3]).2.1 (by decide)
      ((SMA_200 [(1 : ℚ), 2, 3]).getD 0 (some 0)) (by decide)
  · have h := (sma_short_undefined_and_last_mean [(1 : ℚ), 3, 5]).2.2 2
      (by decide) (by decide)
    norm_num at h
    simpa using h

/-! ## C9 -/

/-- C9 counterexample: the engine adds five derived indicator columns
(SMA_50, SMA_200, RSI, MACD, MACD_Signal), not six as the claim states. -/
theorem indicator_columns_are_five_not_six :
    indicatorColumns.length = 5 ∧ ¬ indicatorColumns.length = 6 := by decide

/-- C9 (amended): frame property of the indicator engine — for every input
price series the engine returns the same series (every Close value, the row
count and the row order unchanged) annotated with five derived indicator
columns; nothing already present in the series is modified. -/
theorem calculate_indicators_frame (xs : List ℚ) :
    (calculate_indicators xs).length = xs.length ∧
    (calculate_indicators xs).map Row.close = xs ∧
    indicatorColumns.length = 5 := by
  refine ⟨by simp [calculate_indicators], ?_, rfl⟩
  have h : (calculate_indicators xs).map Row.close =
      (List.range xs.length).map (fun i => xs.getD i 0) := by
    simp [calculate_indicators, List.map_map, Function.comp]
  rw [h, map_getD_range]

/-! ## Helper lemmas about the exponential moving averages -/

lemma ewmMeanFrom_length (a : ℚ) (xs : List ℚ) :
    ∀ prev : ℚ, (ewmMeanFrom a prev xs).length = xs.length := by
  induction xs with
  | nil => intro prev; rfl
  | cons x t ih => intro prev; simp [ewmMeanFrom, ih]

lemma ewmMean_length (s : ℕ) (xs : List ℚ) : (ewmMean s xs).length = xs.length := by
  cases xs with
  | nil => rfl
  | cons x t => simp [ewmMean, ewmMeanFrom_length]

lemma ewmMeanFrom_getD_succ (a : ℚ) (xs : List ℚ) :
    ∀ (prev : ℚ) (i : ℕ), i + 1 < xs.length →
      (ewmMeanFrom a prev xs).getD (i + 1) 0 =
        a * xs.getD (i + 1) 0 + (1 - a) * (ewmMeanFrom a prev xs).getD i 0 := by
  induction xs with
  | nil => intro prev i h; simp at h
  | cons x t ih =>
    intro prev i h
    cases i with
    | zero =>
      cases t with
      | nil => simp at h
      | cons z rest => simp [ewmMeanFrom]
    | succ j =>
      have hj : j + 1 < t.length := by simpa using h
      have := ih (a * x + (1 - a) * prev) j hj
      simpa [ewmMeanFrom] using this

lemma ewmMean_getD_succ (s : ℕ) (xs : List ℚ) (i : ℕ) (h : i + 1 < xs.length) :
    (ewmMean s xs).getD (i + 1) 0 =
      2 / ((s : ℚ) + 1) * xs.getD (i + 1) 0 +
        (1 - 2 / ((s : ℚ) + 1)) * (ewmMean s xs).getD i 0 := by
  cases xs with
  | nil => simp at h
  | cons x t =>
    cases i with
    | zero =>
      cases t with
      | nil => simp at h
      | cons z rest => simp [ewmMean, ewmMeanFrom]
    | succ j =>
      have hj : j + 1 < t.length := by simpa using h
      have := ewmMeanFrom_getD_succ (2 / ((s : ℚ) + 1)) t x j hj
      simpa [ewmMean] using this

lemma zipWith_getD (f : ℚ → ℚ → ℚ) (as bs : List ℚ) (i : ℕ)
    (h1 : i < as.length) (h2 : i < bs.length) :
    (List.zipWith f as bs).getD i 0 = f (as.getD i 0) (bs.getD i 0) := by
  have ha := List.getElem?_eq_getElem h1
  have hb := List.getElem?_eq_getElem h2
  have hz : (List.zipWith f as bs)[i]? = some (f as[i] bs[i]) := by
    rw [List.getElem?_zipWith, ha, hb]
  simp [List.getD, hz, ha, hb]

/-! ## C4 -/

/-- C4: the EMA/MACD pipeline — each EMA(span) has the length of its input, is
seeded with the first close, and satisfies the recursion with smoothing factor
2 / (span + 1); the MACD column is point-wise EMA(12) minus EMA(26); and the
MACD_Signal column is EMA(9) applied to the MACD series itself, seeded by the
first MACD value. -/
theorem ema_macd_pipeline (s : ℕ) (xs : List ℚ) :
    (ewmMean s xs).length = xs.length ∧
    (∀ x rest, xs = x :: rest → (ewmMean s xs).getD 0 0 = x) ∧
    (∀ i, i + 1 < xs.length →
      (ewmMean s xs).getD (i + 1) 0 =
        2 / ((s : ℚ) + 1) * xs.getD (i + 1) 0 +
          (1 - 2 / ((s : ℚ) + 1)) * (ewmMean s xs).getD i 0) ∧
    (∀ i, i < xs.length →
      (MACD xs).getD i 0 = (ewmMean 12 xs).getD i 0 - (ewmMean 26 xs).getD i 0) ∧
    (MACD_Signal xs = ewmMean 9 (MACD xs) ∧
      ∀ m rest, MACD xs = m :: rest → (MACD_Signal xs).getD 0 0 = m) := by
  refine ⟨ewmMean_length s xs, ?_, fun i h => ewmMean_getD_succ s xs i h, ?_, rfl, ?_⟩
  · rintro x rest rfl
    simp [ewmMean]
  · intro i h
    exact zipWith_getD (fun a b => a - b) (ewmMean 12 xs) (ewmMean 26 xs) i
      (by rw [ewmMean_length]; exact h) (by rw [ewmMean_length]; exact h)
  · rintro m rest hm
    rw [MACD_Signal, hm]
    simp [ewmMean]

/-- C4 witness: on the two-point series [3, 5] with span 12, the EMA is seeded
at 3, the second EMA value follows the recursion, and the first MACD value is
the difference of the seeded EMAs. -/
theorem ema_macd_pipeline_witness :
    (ewmMean 12 [(3 : ℚ), 5]).getD 0 0 = 3 ∧
    (ewmMean 12 [(3 : ℚ), 5]).getD (0 + 1) 0 =
      2 / (((12 : ℕ) : ℚ) + 1) * [(3 : ℚ), 5].getD (0 + 1) 0 +
        (1 - 2 / (((12 : ℕ) : ℚ) + 1)) * (ewmMean 12 [(3 : ℚ), 5]).getD 0 0 ∧
    (MACD [(3 : ℚ), 5]).getD 0 0 =
      (ewmMean 12 [(3 : ℚ), 5]).getD 0 0 - (ewmMean 26 [(3 : ℚ), 5]).getD 0 0 :=
  ⟨(ema_macd_pipeline 12 [3, 5]).2.1 3 [5] rfl,
   (ema_macd_pipeline 12 [3, 5]).2.2.1 0 (by decide),
   (ema_macd_pipeline 12 [3, 5]).2.2.2.1 0 (by decide)⟩

/-! ## Helper lemmas about the RSI column -/

lemma gains_length (xs : List ℚ) : (gains xs).length = xs.length := by
  cases xs with
  | nil => rfl
  | cons x t => simp [gains, List.length_zipWith]

lemma losses_length (xs : List ℚ) : (losses xs).length = xs.length := by
  cases xs with
  | nil => rfl
  | cons x t => simp [losses, List.length_zipWith]

lemma mem_zipWith_imp {f : ℚ → ℚ → ℚ} (P : ℚ → Prop) (hf : ∀ a b, P (f a b)) :
    ∀ (as bs : List ℚ) (v : ℚ), v ∈ List.zipWith f as bs → P v := by
  intro as
  induction as with
  | nil => intro bs v hv; simp at hv
  | cons a t ih =>
    intro bs v hv
    cases bs with
    | nil => simp at hv
    | cons b bs =>
      simp only [List.zipWith, List.mem_cons] at hv
      rcases hv with h | h
      · exact h ▸ hf a b
      · exact ih bs v h

lemma gains_nonneg (xs : List ℚ) : ∀ v ∈ gains xs, 0 ≤ v := by
  cases xs with
  | nil => simp [gains]
  | cons x t =>
    intro v hv
    simp only [gains, List.mem_cons] at hv
    rcases hv with h | h
    · exact h.ge
    · refine mem_zipWith_imp (0 ≤ ·) ?_ t (x :: t) v h
      intro a b
      dsimp only
      split
      · linarith
      · exact le_refl 0

lemma losses_nonneg (xs : List ℚ) : ∀ v ∈ losses xs, 0 ≤ v := by
  cases xs with
  | nil => simp [losses]
  | cons x t =>
    intro v hv
    simp only [losses, List.mem_cons] at hv
    rcases hv with h | h
    · exact h.ge
    · refine mem_zipWith_imp (0 ≤ ·) ?_ t (x :: t) v h
      intro a b
      dsimp only
      split
      · linarith
      · exact le_refl 0

lemma RSI_length (xs : List ℚ) : (RSI xs).length = xs.length := by
  simp [RSI, List.length_zipWith, rollingMean_length, gains_length, losses_length]

lemma RSI_getElem?_eq (xs : List ℚ) (i : ℕ) (g l : Option ℚ)
    (hg : (rollingMean 14 (gains xs))[i]? = some g)
    (hl : (rollingMean 14 (losses xs))[i]? = some l) :
    (RSI xs)[i]? = some (rsiCombine g l) := by
  rw [RSI]
  simp only [List.getElem?_zipWith, hg, hl]

lemma rsi_entry_none_of_short (xs : List ℚ) (i : ℕ) (hi : i < xs.length)
    (h14 : i + 1 < 14) : (RSI xs)[i]? = some none := by
  have hg := rollingMean_getElem? 14 (gains xs) i (by rw [gains_length]; exact hi)
  have hl := rollingMean_getElem? 14 (losses xs) i (by rw [losses_length]; exact hi)
  rw [if_pos h14] at hg hl
  rw [RSI_getElem?_eq xs i none none hg hl]
  rfl

lemma rollingMean_entry_nonneg (w : ℕ) (ys : List ℚ) (hys : ∀ v ∈ ys, 0 ≤ v)
    (i : ℕ) (g : ℚ) (h : (rollingMean w ys)[i]? = some (some g)) : 0 ≤ g := by
  have hi : i < ys.length := by
    by_contra hcon
    rw [List.getElem?_eq_none (by rw [rollingMean_length]; omega)] at h
    cases h
  rw [rollingMean_getElem? w ys i hi] at h
  by_cases hc : i + 1 < w
  · rw [if_pos hc] at h
    simp at h
  · rw [if_neg hc] at h
    simp only [Option.some.injEq] at h
    rw [← h]
    apply div_nonneg
    · apply List.sum_nonneg
      intro v hv
      exact hys v (List.mem_of_mem_take (List.mem_of_mem_drop hv))
    · exact Nat.cast_nonneg w

/-! ## C6 -/

/-- C6 counterexample: on a constant series of exactly 14 points every
day-over-day delta is zero, so at index 13 both trailing averages are 0,
the ratio is 0/0 = NaN, and rsi_14 is undefined there — refuting the claim
that for every series of length at least 14 the RSI is defined from index 13
onward. -/
theorem rsi_flat_series_undefined_at_13 :
    (List.replicate 14 (1 : ℚ)).length = 14 ∧
    (RSI (List.replicate 14 (1 : ℚ)))[13]? = some none := by
  with_unfolding_all decide

/-- C6 (amended): for every series shorter than 14 points the rsi_14 column is
undefined at every point; it is undefined at every index below 13; and from
index 13 onward it is defined at every index where the trailing average gain
and the trailing average loss are not both zero (when both are zero the 0/0
ratio leaves it undefined). -/
theorem rsi_definedness (xs : List ℚ) :
    (xs.length < 14 → ∀ v ∈ RSI xs, v = none) ∧
    (∀ i, i < xs.length → i + 1 < 14 → (RSI xs)[i]? = some none) ∧
    (∀ i, i < xs.length → 13 ≤ i →
      ¬ ((rollingMean 14 (gains xs))[i]? = some (some 0) ∧
          (rollingMean 14 (losses xs))[i]? = some (some 0)) →
      ∃ q : ℚ, (RSI xs)[i]? = some (some q)) := by
  refine ⟨?_, ?_, ?_⟩
  · intro h v hv
    obtain ⟨i, hi, hv'⟩ := List.getElem_of_mem hv
    have hi' : i < xs.length := by rw [← RSI_length xs]; exact hi
    have := rsi_entry_none_of_short xs i hi' (by omega)
    rw [List.getElem?_eq_getElem hi, hv'] at this
    exact Option.some.inj this
  · intro i hi h14
    exact rsi_entry_none_of_short xs i hi h14
  · intro i hi h13 hboth
    have hg := rollingMean_getElem? 14 (gains xs) i (by rw [gains_length]; exact hi)
    have hl := rollingMean_getElem? 14 (losses xs) i (by rw [losses_length]; exact hi)
    rw [if_neg (by omega)] at hg hl
    rw [RSI_getElem?_eq xs i _ _ hg hl]
    revert hg hl
    generalize (((gains xs).take (i + 1)).drop (i + 1 - 14)).sum / ((14 : ℕ) : ℚ) = G
    generalize (((losses xs).take (i + 1)).drop (i + 1 - 14)).sum / ((14 : ℕ) : ℚ) = L
    intro hg hl
    by_cases hl0 : L = 0
    · by_cases hg0 : G = 0
      · exact absurd ⟨by rw [hg, hg0], by rw [hl, hl0]⟩ hboth
      · exact ⟨100, by simp only [rsiCombine, if_pos hl0, if_neg hg0]⟩
    · exact ⟨100 - 100 / (1 + G / L), by simp only [rsiCombine, if_neg hl0]⟩

/-- C6 witness: on the 3-point series [1, 2, 3] the RSI is undefined; on a
15-point alternating series the RSI is undefined at index 0 and defined at
index 13. -/
theorem rsi_definedness_witness :
    (RSI [(1 : ℚ), 2, 3]).getD 0 (some 0) = none ∧
    (RSI [(2 : ℚ), 1, 2, 1, 2, 1, 2, 1, 2, 1, 2, 1, 2, 1, 2])[0]? = some none ∧
    (∃ q : ℚ,
      (RSI [(2 : ℚ), 1, 2, 1, 2, 1, 2, 1, 2, 1, 2, 1, 2, 1, 2])[13]? = some (some q)) := by
  refine ⟨?_, ?_, ?_⟩
  · exact (rsi_definedness [(1 : ℚ), 2, 3]).1 (by decide)
      ((RSI [(1 : ℚ), 2, 3]).getD 0 (some 0)) (by with_unfolding_all decide)
  · exact (rsi_definedness [(2 : ℚ), 1, 2, 1, 2, 1, 2, 1, 2, 1, 2, 1, 2, 1, 2]).2.1 0
      (by decide) (by decide)
  · exact (rsi_definedness [(2 : ℚ), 1, 2, 1, 2, 1, 2, 1, 2, 1, 2, 1, 2, 1, 2]).2.2 13
      (by decide) (by decide) (by with_unfolding_all decide)

/-! ## C7 -/

/-- C7: RSI boundedness — at every index where rsi_14 is defined and the
trailing average loss is nonzero, the value 100 - 100 / (1 + g / l) lies in
the interval [0, 100]. -/
theorem rsi_bounded (xs : List ℚ) (i : ℕ) (q l : ℚ)
    (hq : (RSI xs)[i]? = some (some q))
    (hl : (rollingMean 14 (losses xs))[i]? = some (some l))
    (hl0 : l ≠ 0) :
    0 ≤ q ∧ q ≤ 100 := by
  have hi : i < xs.length := by
    by_contra hcon
    rw [List.getElem?_eq_none (by rw [RSI_length]; omega)] at hq
    cases hq
  have hgi : i < (rollingMean 14 (gains xs)).length := by
    rw [rollingMean_length, gains_length]; exact hi
  have hg : (rollingMean 14 (gains xs))[i]? = some ((rollingMean 14 (gains xs))[i]) :=
    List.getElem?_eq_getElem hgi
  rw [RSI_getElem?_eq xs i _ _ hg hl] at hq
  have hlpos : 0 < l :=
    lt_of_le_of_ne (rollingMean_entry_nonneg 14 (losses xs) (losses_nonneg xs) i l hl)
      (Ne.symm hl0)
  cases hog : (rollingMean 14 (gains xs))[i] with
  | none => rw [hog] at hq; simp [rsiCombine] at hq
  | some g =>
    rw [hog] at hq
    have hgnn : 0 ≤ g := by
      apply rollingMean_entry_nonneg 14 (gains xs) (gains_nonneg xs) i g
      rw [hg, hog]
    rw [rsiCombine, if_neg hl0] at hq
    have hqe : q = 100 - 100 / (1 + g / l) := by
      simpa using hq.symm
    have hrs : 0 ≤ g / l := div_nonneg hgnn (le_of_lt hlpos)
    have h1 : (0 : ℚ) < 1 + g / l := by linarith
    have h2 : 100 / (1 + g / l) ≤ 100 := by
      rw [div_le_iff₀ h1]
      nlinarith
    have h3 : 0 < 100 / (1 + g / l) := by positivity
    constructor
    · rw [hqe]; linarith
    · rw [hqe]; linarith

/-- C7 witness: on a 15-point alternating series the RSI at index 13 is
600/13, the trailing average loss there is 1/2 ≠ 0, and the bound holds. -/
theorem rsi_bounded_witness : (0 : ℚ) ≤ 600 / 13 ∧ (600 / 13 : ℚ) ≤ 100 :=
  rsi_bounded [2, 1, 2, 1, 2, 1, 2, 1, 2, 1, 2, 1, 2, 1, 2] 13 (600 / 13) (1 / 2)
    (by with_unfolding_all decide) (by with_unfolding_all decide)
    (by with_unfolding_all decide)

/-! ## Helper lemmas about substring search -/

lemma isPref_append_self (n r : List Char) : isPref n (n ++ r) = true := by
  induction n with
  | nil => rfl
  | cons a as ih => simp [isPref, ih]

lemma hasSub_self_append (n post : List Char) : hasSub n (n ++ post) = true := by
  cases n with
  | nil =>
    cases post with
    | nil => rfl
    | cons b bs => simp [hasSub, isPref]
  | cons a as =>
    have h := isPref_append_self (a :: as) post
    rw [List.cons_append] at h
    simp [hasSub, h]

lemma hasSub_mono (n : List Char) : ∀ pre rest : List Char,
    hasSub n rest = true → hasSub n (pre ++ rest) = true := by
  intro pre
  induction pre with
  | nil => intro rest h; simpa using h
  | cons p ps ih =>
    intro rest h
    have h2 := ih rest h
    simp [hasSub, h2]

lemma strContains_of_data (s mid : String) (pre post : List Char)
    (h : s.data = pre ++ (mid.data ++ post)) : strContains s mid = true := by
  unfold strContains
  rw [h]
  exact hasSub_mono mid.data pre (mid.data ++ post) (hasSub_self_append mid.data post)

/-! ## C8 -/

/-- C8 counterexample: a Sell-branch observation (price 777, SMA-50 555,
SMA-200 444) whose rationale string does not contain the 2-decimal renderings
of the price or of either moving average — refuting the claim that every
branch embeds the price and the moving averages. -/
theorem sell_reason_omits_price_and_smas :
    (generate_signal (some 70) (some 777) (some 555) (some 444) (some (-1)) (some 0)).1
        = sellLabel ∧
    strContains (generate_signal (some 70) (some 777) (some 555) (some 444)
        (some (-1)) (some 0)).2 (fmtFixed 2 777) = false ∧
    strContains (generate_signal (some 70) (some 777) (some 555) (some 444)
        (some (-1)) (some 0)).2 (fmtFixed 2 555) = false ∧
    strContains (generate_signal (some 70) (some 777) (some 555) (some 444)
        (some (-1)) (some 0)).2 (fmtFixed 2 444) = false := by
  with_unfolding_all decide

/-- C8 (amended): every classifier branch's rationale embeds the RSI value
formatted to 2 decimals and the MACD value formatted to 4 decimals; the Sell,
Buy and Building branches (those whose label is not Neutral) also embed the
MACD-signal value to 4 decimals; the price, formatted to 2 decimals, is
embedded only by the Neutral branch; the moving averages are never embedded. -/
theorem reason_embeds_compared_values
    (rsi price sma50 sma200 macd macd_signal : Option ℚ) :
    strContains (generate_signal rsi price sma50 sma200 macd macd_signal).2
        (fmtNum 2 rsi) = true ∧
    strContains (generate_signal rsi price sma50 sma200 macd macd_signal).2
        (fmtNum 4 macd) = true ∧
    ((generate_signal rsi price sma50 sma200 macd macd_signal).1 ≠ neutralLabel →
      strContains (generate_signal rsi price sma50 sma200 macd macd_signal).2
        (fmtNum 4 macd_signal) = true) ∧
    ((generate_signal rsi price sma50 sma200 macd macd_signal).1 = neutralLabel →
      strContains (generate_signal rsi price sma50 sma200 macd macd_signal).2
        (fmtNum 2 price) = true) := by
  unfold generate_signal
  cases hs : sellCond rsi price sma50 sma200 macd macd_signal
  · cases hb : buyCond rsi price sma50 sma200 macd macd_signal
    · cases hc : buildingCond rsi price sma50 sma200 macd macd_signal
      · -- Neutral branch
        refine ⟨?_, ?_, fun h => absurd rfl h, fun _ => ?_⟩
        · exact strContains_of_data _ _ ("MACD = " ++ fmtNum 4 macd ++ ", RSI = ").data
            ((", Price = $" ++ fmtNum 2 price ++ " → No strong alignment").data)
            (by simp [List.append_assoc])
        · exact strContains_of_data _ _ ("MACD = ").data
            ((", RSI = " ++ fmtNum 2 rsi ++ ", Price = $" ++ fmtNum 2 price ++
              " → No strong alignment").data)
            (by simp [List.append_assoc])
        · exact strContains_of_data _ _
            ("MACD = " ++ fmtNum 4 macd ++ ", RSI = " ++ fmtNum 2 rsi ++ ", Price = $").data
            ((" → No strong alignment").data)
            (by simp [List.append_assoc])
      · -- Building Buy Zone branch
        refine ⟨?_, ?_, fun _ => ?_,
          fun h => absurd (show buildingLabel = neutralLabel by simpa using h) (by decide)⟩
        · exact strContains_of_data _ _ ("RSI = ").data
            ((" (35–45), MACD = " ++ fmtNum 4 macd ++ " > Signal = " ++
              fmtNum 4 macd_signal ++ " → Gradual buying zone").data)
            (by simp [List.append_assoc])
        · exact strContains_of_data _ _
            ("RSI = " ++ fmtNum 2 rsi ++ " (35–45), MACD = ").data
            ((" > Signal = " ++ fmtNum 4 macd_signal ++ " → Gradual buying zone").data)
            (by simp [List.append_assoc])
        · exact strContains_of_data _ _
            ("RSI = " ++ fmtNum 2 rsi ++ " (35–45), MACD = " ++ fmtNum 4 macd ++
              " > Signal = ").data
            ((" → Gradual buying zone").data)
            (by simp [List.append_assoc])
    · -- Buy branch
      refine ⟨?_, ?_, fun _ => ?_,
        fun h => absurd (show buyLabel = neutralLabel by simpa using h) (by decide)⟩
      · exact strContains_of_data _ _
          ("MACD = " ++ fmtNum 4 macd ++ " > Signal = " ++ fmtNum 4 macd_signal ++
            ", RSI = ").data
          ((", Price < SMA50 but > SMA200 → Strong buy").data)
          (by simp [List.append_assoc])
      · exact strContains_of_data _ _ ("MACD = ").data
          ((" > Signal = " ++ fmtNum 4 macd_signal ++ ", RSI = " ++ fmtNum 2 rsi ++
            ", Price < SMA50 but > SMA200 → Strong buy").data)
          (by simp [List.append_assoc])
      · exact strContains_of_data _ _
          ("MACD = " ++ fmtNum 4 macd ++ " > Signal = ").data
          ((", RSI = " ++ fmtNum 2 rsi ++ ", Price < SMA50 but > SMA200 → Strong buy").data)
          (by simp [List.append_assoc])
  · -- Sell branch
    refine ⟨?_, ?_, fun _ => ?_,
      fun h => absurd (show sellLabel = neutralLabel by simpa using h) (by decide)⟩
    · exact strContains_of_data _ _
        ("MACD = " ++ fmtNum 4 macd ++ " < Signal = " ++ fmtNum 4 macd_signal ++
          ", RSI = ").data
        ((" or price over SMA50/SMA200 → Bearish setup").data)
        (by simp [List.append_assoc])
    · exact strContains_of_data _ _ ("MACD = ").data
        ((" < Signal = " ++ fmtNum 4 macd_signal ++ ", RSI = " ++ fmtNum 2 rsi ++
          " or price over SMA50/SMA200 → Bearish setup").data)
        (by simp [List.append_assoc])
    · exact strContains_of_data _ _
        ("MACD = " ++ fmtNum 4 macd ++ " < Signal = ").data
        ((", RSI = " ++ fmtNum 2 rsi ++ " or price over SMA50/SMA200 → Bearish setup").data)
        (by simp [List.append_assoc])

/-- C8 witness: on a concrete Sell observation the rationale embeds the
4-decimal MACD-signal value, and on an all-undefined observation the Neutral
rationale embeds the 2-decimal price. -/
theorem reason_embeds_compared_values_witness :
    strContains (generate_signal (some 70) (some 10) (some 20) (some 20)
        (some (-1)) (some 0)).2 (fmtNum 4 (some 0)) = true ∧
    strContains (generate_signal none (some 5) none none none none).2
        (fmtNum 2 (some 5)) = true := by
  constructor
  · exact (reason_embeds_compared_values (some 70) (some 10) (some 20) (some 20)
      (some (-1)) (some 0)).2.2.1 (by with_unfolding_all decide)
  · exact (reason_embeds_compared_values none (some 5) none none none none).2.2.2
      (by decide)
